import Mathlib

/-!
# Verification of the aidungeon2-cli API core

A shallow embedding of `src/lib.rs` (`mod api`): the registration/login flow,
the session controller (`start_story`, `send_reply`) and the catalog fetcher
(`get_recommended_story`), together with proofs of the specified properties.

The HTTP transport is modelled as a script of `TransportOutcome`s consumed in
order, one per `send()` call; each operation returns its `Result`, the list of
HTTP requests it issued, and (for operations with a receiver) the handle state.
-/

namespace AIDungeonCli

/-! ## Data model -/

/-- Modelled from the spec: `user.rs` is not among the provided sources.
Credentials per §3: a sparse set of optional fields, serialized as the JSON
body of the auth requests. -/
structure UserAuth where
  email : Option String
  username : Option String
  password : Option String
deriving DecidableEq, Repr

/-- Modelled from the spec: `user.rs` is not among the provided sources.
UserRecord per §3: the only field the core consumes is the access token. -/
structure User where
  accessToken : String
deriving DecidableEq, Repr

/-- Modelled from the spec: `story.rs` is not among the provided sources.
NarrativeEvent per §3: kind (input/output), value, optional conclusion. -/
structure StoryText where
  kind : String
  value : String
  conclusion : Option String
deriving DecidableEq, Repr

/-- Modelled from the spec: `story.rs` is not among the provided sources.
SessionStartResult per §3/§6: a session identifier plus the initial
transcript; `lib.rs` reads fields `id` and `story`. -/
structure Story where
  id : Nat
  story : List StoryText
deriving DecidableEq, Repr

/-- Modelled from the spec: `story.rs` is not among the provided sources.
RecommendedStartCatalog per §3 is opaque pass-through data; we model it as an
uninterpreted payload. -/
structure StartModesContainer where
  raw : String
deriving DecidableEq, Repr

/-- `StartOptions` as constructed in `start_story` (`lib.rs` lines 257-262):
three optional fields and the story mode. -/
structure StartOptions where
  characterType : Option String
  customPrompt : Option String
  name : Option String
  storyMode : String
deriving DecidableEq, Repr

/-- The JSON body attached to a request (`.json(&...)` call sites in `lib.rs`). -/
inductive RequestBody where
  | userAuth (u : UserAuth)
  | startOptions (o : StartOptions)
  | storyTextInput (text : String)
  | empty
deriving DecidableEq, Repr

/-- One HTTP request as issued by the client: method, URL, body. -/
structure HttpRequest where
  method : String
  url : String
  body : RequestBody
deriving DecidableEq, Repr

/-- A response body as the decoders see it: either a value of one of the
schema types, or bytes that fail to decode as the requested type (carrying
the serde error text). -/
inductive ServerBody where
  | user (u : User)
  | story (s : Story)
  | storyTexts (l : List StoryText)
  | startModes (c : StartModesContainer)
  | malformed (e : String)
deriving DecidableEq, Repr

/-- Outcome of one `send()` call: either the transport itself fails
(`reqwest::Error`) or a response with a status code and a body arrives. -/
inductive TransportOutcome where
  | failure (e : String)
  | response (status : Nat) (body : ServerBody)
deriving DecidableEq, Repr

/-- The error enum `AIDungeonError` (`lib.rs` lines 30-38). Library error
payloads are modelled as their display strings. -/
inductive AIDungeonError where
  | EmailAlreadyExists
  | UsernameAlreadyExists
  | InvalidPassword
  | RequestFailed (e : String)
  | InvalidResponseFromServer (e : String)
  | UnexpectedError (msg : String)
deriving DecidableEq, Repr

/-- The client handle `AIDungeon` (`lib.rs` lines 23-28): the configured
`http_client` is represented by the access token bound into its headers, plus
the one piece of mutable state, `story_id`. -/
structure AIDungeon where
  accessToken : String
  story_id : Option Nat
deriving DecidableEq, Repr

/-! ## Constants (`lib.rs` lines 12-17) -/

def URI_USERINFO : String := "https://api.aidungeon.io/users"

def URI_REGISTERUSER : String := "https://api.aidungeon.io/users/@me"

def URI_NEW_SESSION : String := "https://api.aidungeon.io/sessions"

def URI_CURRENT_SESSION : String := "https://api.aidungeon.io/sessions/[SESSIONID]/inputs"

def URI_START_OPTIONS : String := "https://api.aidungeon.io/sessions/*/config"

/-! ## Status display and header validity -/

/-- Abridged table of the `http` crate canonical reason phrases, for the
status codes this development evaluates concretely; unknown codes take the
same fallback text the crate uses in `Display`. -/
def canonicalReason : Nat → String
  | 200 => "OK"
  | 400 => "Bad Request"
  | 401 => "Unauthorized"
  | 403 => "Forbidden"
  | 404 => "Not Found"
  | 406 => "Not Acceptable"
  | 409 => "Conflict"
  | 500 => "Internal Server Error"
  | 503 => "Service Unavailable"
  | _ => "<unknown status code>"

/-- `Display` for `http::StatusCode`: the numeric code, a space, and the
canonical reason (or the fallback). This is the `{}` interpolation of
`response.status()` in the `format!` calls. -/
def statusDisplay (status : Nat) : String :=
  toString status ++ (" " ++ canonicalReason status)

/-- Validity of one byte of a header value, as checked by
`http::HeaderValue::from_str`: visible characters and tab. -/
def validHeaderByte (b : Nat) : Bool :=
  (32 ≤ b && b ≠ 127) || b == 9

/-- `HeaderValue::from_str(s).is_ok()`: every byte of `s` is a valid header
byte. (Code points ≥ 128 encode to bytes ≥ 128, which the crate accepts, so
checking per character is equivalent to checking per UTF-8 byte.) -/
def validHeaderValue (s : String) : Bool :=
  s.toList.all fun c => validHeaderByte c.toNat

/-- Display text of `http::header::InvalidHeaderValue`. -/
def invalidHeaderValueMsg : String := "failed to parse header value"

/-! ## Decoders

Each `.json::<T>()?` call site decodes the scripted body as the expected
schema type; a body of the wrong shape is a serde decode failure. -/

def decodeUser : ServerBody → Except String User
  | .user u => .ok u
  | .malformed e => .error e
  | _ => .error "invalid type"

def decodeStory : ServerBody → Except String Story
  | .story s => .ok s
  | .malformed e => .error e
  | _ => .error "invalid type"

def decodeStoryTexts : ServerBody → Except String (List StoryText)
  | .storyTexts l => .ok l
  | .malformed e => .error e
  | _ => .error "invalid type"

def decodeStartModes : ServerBody → Except String StartModesContainer
  | .startModes c => .ok c
  | .malformed e => .error e
  | _ => .error "invalid type"

/-! ## URL templating -/

/-- `str::replace` of `lib.rs` line 303, specialized to its fixed pattern
`"[SESSIONID]"`: scan left to right, splice `rep` at each (non-overlapping)
occurrence of the pattern. -/
def replaceSessionId (rep : List Char) : List Char → List Char
  | '[' :: 'S' :: 'E' :: 'S' :: 'S' :: 'I' :: 'O' :: 'N' :: 'I' :: 'D' :: ']' :: rest =>
      rep ++ replaceSessionId rep rest
  | c :: rest => c :: replaceSessionId rep rest
  | [] => []

/-- The URL `send_reply` posts to:
`URI_CURRENT_SESSION.replace("[SESSIONID]", &sid.to_string())`. -/
def currentSessionUrl (sid : Nat) : String :=
  ⟨replaceSessionId (toString sid).toList URI_CURRENT_SESSION.toList⟩

/-! ## Operations -/

/-- Result of a static operation (no receiver): the `Result` value and the
requests issued, in order. -/
structure OpResult (α : Type) where
  result : Except AIDungeonError α
  requests : List HttpRequest
deriving Repr

/-- Result of an operation on a handle: the `Result`, the handle state after
the call, and the requests issued, in order. -/
structure HandleOpResult (α : Type) where
  result : Except AIDungeonError α
  state : AIDungeon
  requests : List HttpRequest
deriving Repr

/-- Transport exhaustion marker: `send()` in the model on an empty script. A
theorem about a run never relies on this branch unless its script is shorter
than the requests the code issues. -/
def noScriptedResponse : String := "transport: no scripted response"

/-- `AIDungeon::register` (`lib.rs` lines 75-167).

POST `/users` with only `email`; 406 → `EmailAlreadyExists`, 200 → decode a
`User`; other → `UnexpectedError` with the status. Then rebind the client
with the `x-access-token` header (invalid header value → `UnexpectedError`)
and PATCH `/users/@me` with `username` and `password`; 200 → handle,
400 → `UsernameAlreadyExists`, other → `UnexpectedError` with the status. -/
def register (email username password : String) (env : List TransportOutcome) :
    OpResult AIDungeon :=
  let req1 : HttpRequest :=
    ⟨"POST", URI_USERINFO, .userAuth ⟨some email, none, none⟩⟩
  match env with
  | [] => ⟨.error (.RequestFailed noScriptedResponse), [req1]⟩
  | .failure e :: _ => ⟨.error (.RequestFailed e), [req1]⟩
  | .response status body :: env' =>
    if status = 406 then
      ⟨.error .EmailAlreadyExists, [req1]⟩
    else if status = 200 then
      match decodeUser body with
      | .error e => ⟨.error (.InvalidResponseFromServer e), [req1]⟩
      | .ok user =>
        if validHeaderValue user.accessToken then
          let req2 : HttpRequest :=
            ⟨"PATCH", URI_REGISTERUSER, .userAuth ⟨none, some username, some password⟩⟩
          match env' with
          | [] => ⟨.error (.RequestFailed noScriptedResponse), [req1, req2]⟩
          | .failure e :: _ => ⟨.error (.RequestFailed e), [req1, req2]⟩
          | .response status2 _ :: _ =>
            if status2 = 200 then
              ⟨.ok ⟨user.accessToken, none⟩, [req1, req2]⟩
            else if status2 = 400 then
              ⟨.error .UsernameAlreadyExists, [req1, req2]⟩
            else
              ⟨.error (.UnexpectedError
                ("Bad request status code while trying to register user: "
                  ++ statusDisplay status2)), [req1, req2]⟩
        else
          ⟨.error (.UnexpectedError
            ("Bad access token received from server while registering new user: "
              ++ invalidHeaderValueMsg)), [req1]⟩
    else
      ⟨.error (.UnexpectedError
        ("Bad request status code while checking whether user account exists: "
          ++ statusDisplay status)), [req1]⟩

/-- `AIDungeon::login` (`lib.rs` lines 175-236).

POST `/users` with `email` and `password`; 200 → decode a `User`, rebind the
client with the token header, and return the handle with no running story;
other status → `UnexpectedError` with the status. No second request. -/
def login (email password : String) (env : List TransportOutcome) :
    OpResult AIDungeon :=
  let req1 : HttpRequest :=
    ⟨"POST", URI_USERINFO, .userAuth ⟨some email, none, some password⟩⟩
  match env with
  | [] => ⟨.error (.RequestFailed noScriptedResponse), [req1]⟩
  | .failure e :: _ => ⟨.error (.RequestFailed e), [req1]⟩
  | .response status body :: _ =>
    if status = 200 then
      match decodeUser body with
      | .error e => ⟨.error (.InvalidResponseFromServer e), [req1]⟩
      | .ok user =>
        if validHeaderValue user.accessToken then
          ⟨.ok ⟨user.accessToken, none⟩, [req1]⟩
        else
          ⟨.error (.UnexpectedError
            ("Bad access token received from server while registering new user: "
              ++ invalidHeaderValueMsg)), [req1]⟩
    else
      ⟨.error (.UnexpectedError
        ("Bad request status code while trying to log in: "
          ++ statusDisplay status)), [req1]⟩

/-- `AIDungeon::start_story` (`lib.rs` lines 247-281).

POST `/sessions` with the `StartOptions` built verbatim from the arguments;
200 → decode a `Story`, store `response.id` into `story_id` and return
`response.story`; other status → `UnexpectedError` (whose text, as in the
source, says "while sending reply") and the handle is unchanged. -/
def start_story (d : AIDungeon) (custom_prompt : Option String)
    (story_mode : String) (name character_type : Option String)
    (env : List TransportOutcome) : HandleOpResult (List StoryText) :=
  let req1 : HttpRequest :=
    ⟨"POST", URI_NEW_SESSION, .startOptions ⟨character_type, custom_prompt, name, story_mode⟩⟩
  match env with
  | [] => ⟨.error (.RequestFailed noScriptedResponse), d, [req1]⟩
  | .failure e :: _ => ⟨.error (.RequestFailed e), d, [req1]⟩
  | .response status body :: _ =>
    if status = 200 then
      match decodeStory body with
      | .error e => ⟨.error (.InvalidResponseFromServer e), d, [req1]⟩
      | .ok response =>
        ⟨.ok response.story, { d with story_id := some response.id }, [req1]⟩
    else
      ⟨.error (.UnexpectedError
        ("Unexpected status code while sending reply: "
          ++ statusDisplay status)), d, [req1]⟩

/-- `AIDungeon::send_reply` (`lib.rs` lines 292-322).

If `story_id` is `none`, fail immediately with no request. Otherwise POST to
the session-input URL (placeholder replaced by the identifier) with the text;
200 → decode the transcript, other status → `UnexpectedError` with the
status. The receiver is `&self`, so the state is returned unchanged on every
path. -/
def send_reply (d : AIDungeon) (text : String) (env : List TransportOutcome) :
    HandleOpResult (List StoryText) :=
  match d.story_id with
  | none =>
    ⟨.error (.UnexpectedError "There is no running story, but tried to send reply."), d, []⟩
  | some sid =>
    let req1 : HttpRequest :=
      ⟨"POST", currentSessionUrl sid, .storyTextInput text⟩
    match env with
    | [] => ⟨.error (.RequestFailed noScriptedResponse), d, [req1]⟩
    | .failure e :: _ => ⟨.error (.RequestFailed e), d, [req1]⟩
    | .response status body :: _ =>
      if status = 200 then
        match decodeStoryTexts body with
        | .error e => ⟨.error (.InvalidResponseFromServer e), d, [req1]⟩
        | .ok response => ⟨.ok response, d, [req1]⟩
      else
        ⟨.error (.UnexpectedError
          ("Unexpected status code while sending reply: "
            ++ statusDisplay status)), d, [req1]⟩

/-- `AIDungeon::get_recommended_story` (`lib.rs` lines 324-342).

GET the start-options URL; 200 → decode the catalog, other status →
`UnexpectedError` with the status. `&self` receiver: state unchanged. -/
def get_recommended_story (d : AIDungeon) (env : List TransportOutcome) :
    HandleOpResult StartModesContainer :=
  let req1 : HttpRequest := ⟨"GET", URI_START_OPTIONS, .empty⟩
  match env with
  | [] => ⟨.error (.RequestFailed noScriptedResponse), d, [req1]⟩
  | .failure e :: _ => ⟨.error (.RequestFailed e), d, [req1]⟩
  | .response status body :: _ =>
    if status = 200 then
      match decodeStartModes body with
      | .error e => ⟨.error (.InvalidResponseFromServer e), d, [req1]⟩
      | .ok response => ⟨.ok response, d, [req1]⟩
    else
      ⟨.error (.UnexpectedError
        ("Unexpected status code while trying to fetch premade stories: "
          ++ statusDisplay status)), d, [req1]⟩

/-! ## Derived predicates used by the statements -/

/-- `msg` contains the decimal numeral of `status` as a substring. -/
def mentionsStatus (msg : String) (status : Nat) : Prop :=
  ∃ pre post, msg = pre ++ (toString status ++ post)

/-- The result is an `UnexpectedError` whose message contains the decimal
numeral of `status`. -/
def isUnexpectedMentioning {α : Type} (r : Except AIDungeonError α) (status : Nat) : Prop :=
  ∃ m, r = .error (.UnexpectedError m) ∧ mentionsStatus m status

/-- Whether a result is the `InvalidPassword` error kind. -/
def isInvalidPassword {α : Type} : Except AIDungeonError α → Bool
  | .error .InvalidPassword => true
  | _ => false

/-- Modelled from the spec: the serde serializer for `StartOptions` lives in
`start_options.rs`, which is not among the provided sources. Per §6/§8 the
wire payload carries exactly the populated fields: optional fields that are
absent are omitted. The payload is modelled as its list of key/value pairs. -/
def encodeStartOptions (o : StartOptions) : List (String × String) :=
  (match o.characterType with | some v => [("characterType", v)] | none => [])
    ++ (match o.customPrompt with | some v => [("customPrompt", v)] | none => [])
    ++ (match o.name with | some v => [("name", v)] | none => [])
    ++ [("storyMode", o.storyMode)]

/-- The §3 mutual-exclusion invariant on `StartOptions`, a precondition the
caller must satisfy: in custom mode, `name` and `characterType` are absent;
in any other mode, `customPrompt` is absent and `name`/`characterType` are
present. -/
def wellFormedStartOptions (o : StartOptions) : Prop :=
  if o.storyMode = "custom" then o.name = none ∧ o.characterType = none
  else o.customPrompt = none ∧ o.name ≠ none ∧ o.characterType ≠ none

/-- Whether the encoded payload carries a field named `k`. -/
def hasField (payload : List (String × String)) (k : String) : Bool :=
  payload.any fun kv => kv.1 == k

/-! ## Helper lemmas -/

set_option maxHeartbeats 1000000 in
/-- Splicing any replacement into the session URL template: the placeholder
occurs exactly once, between the fixed prefix and suffix. -/
theorem replaceSessionId_uri (rep : List Char) :
    replaceSessionId rep URI_CURRENT_SESSION.toList
      = "https://api.aidungeon.io/sessions/".toList ++ rep ++ "/inputs".toList := rfl

/-- String concatenation acts as concatenation of the underlying data. -/
theorem string_append_data (a b : String) : a ++ b = ⟨a.data ++ b.data⟩ := rfl

/-- The session-input URL is the template with the decimal identifier
substituted for the placeholder. -/
theorem currentSessionUrl_eq (sid : Nat) :
    currentSessionUrl sid
      = "https://api.aidungeon.io/sessions/" ++ toString sid ++ "/inputs" := by
  unfold currentSessionUrl
  rw [replaceSessionId_uri, string_append_data, string_append_data]
  rcases toString sid with ⟨l⟩
  rfl

/-- On a handle with a stored session identifier, `send_reply` issues exactly
one request, to the session-input URL, whatever the transport outcome. -/
theorem send_reply_requests (d : AIDungeon) (sid : Nat) (text : String)
    (env : List TransportOutcome) (h : d.story_id = some sid) :
    (send_reply d text env).requests
      = [⟨"POST", currentSessionUrl sid, .storyTextInput text⟩] := by
  rcases env with _ | ⟨o, rest⟩
  · simp [send_reply, h]
  · rcases o with e | ⟨status, body⟩
    · simp [send_reply, h]
    · by_cases hs : status = 200
      · rcases hdec : decodeStoryTexts body with e | l <;> simp [send_reply, h, hs, hdec]
      · simp [send_reply, h, hs]

/-- A message built by appending the status display to a prefix mentions the
numeric status code. -/
theorem mentionsStatus_prefix (p : String) (status : Nat) :
    mentionsStatus (p ++ statusDisplay status) status :=
  ⟨p, " " ++ canonicalReason status, rfl⟩

/-! ## Claims -/

/-- C1: when the existence check answers 406 Not Acceptable, `register`
fails with `EmailAlreadyExists` having issued only that one request; and when
the flow reaches the completion request and that answers 400 Bad Request,
`register` fails with `UsernameAlreadyExists`. -/
theorem register_conflict_statuses (email username password : String) :
    (∀ body rest,
      (register email username password (.response 406 body :: rest)).result
          = .error .EmailAlreadyExists
      ∧ (register email username password (.response 406 body :: rest)).requests.length = 1)
    ∧ (∀ body (u : User), decodeUser body = .ok u →
      validHeaderValue u.accessToken = true → ∀ body2 rest,
        (register email username password
            (.response 200 body :: .response 400 body2 :: rest)).result
          = .error .UsernameAlreadyExists) := by
  constructor
  · intro body rest
    constructor <;> simp [register]
  · intro body u hdec hval body2 rest
    simp [register, hdec, hval]

/-- Witness for `register_conflict_statuses` at concrete inputs. -/
theorem register_conflict_statuses_witness :
    ((register "a@b.c" "u" "p" [.response 406 (.malformed "e")]).result
        = .error .EmailAlreadyExists
      ∧ (register "a@b.c" "u" "p" [.response 406 (.malformed "e")]).requests.length = 1)
    ∧ (register "a@b.c" "u" "p"
          [.response 200 (.user ⟨"tok"⟩), .response 400 (.malformed "e")]).result
        = .error .UsernameAlreadyExists :=
  ⟨(register_conflict_statuses "a@b.c" "u" "p").1 (.malformed "e") [],
    (register_conflict_statuses "a@b.c" "u" "p").2 (.user ⟨"tok"⟩) ⟨"tok"⟩ rfl (by decide)
      (.malformed "e") []⟩

/-- C2: `send_reply` on a handle whose session identifier is absent returns
`UnexpectedError` and issues zero HTTP requests. -/
theorem send_reply_without_session (d : AIDungeon) (text : String)
    (env : List TransportOutcome) (h : d.story_id = none) :
    (send_reply d text env).result
      = .error (.UnexpectedError "There is no running story, but tried to send reply.")
    ∧ (send_reply d text env).requests = [] := by
  constructor <;> simp [send_reply, h]

/-- Witness for `send_reply_without_session` at concrete inputs. -/
theorem send_reply_without_session_witness :
    (send_reply ⟨"tok", none⟩ "go north" []).result
      = .error (.UnexpectedError "There is no running story, but tried to send reply.")
    ∧ (send_reply ⟨"tok", none⟩ "go north" []).requests = [] :=
  send_reply_without_session ⟨"tok", none⟩ "go north" [] rfl

/-- C3: after a successful `start_story`, the stored session identifier is
the one decoded from the start response, and a subsequent `send_reply` on the
handle posts to the session-input URL with exactly that identifier (the
placeholder replaced by its decimal representation). -/
theorem start_story_then_send_reply_url
    (d : AIDungeon) (cp : Option String) (sm : String) (nm ct : Option String)
    (body : ServerBody) (st : Story) (rest : List TransportOutcome)
    (hdec : decodeStory body = .ok st) (text : String) (env2 : List TransportOutcome) :
    (start_story d cp sm nm ct (.response 200 body :: rest)).result = .ok st.story
    ∧ (start_story d cp sm nm ct (.response 200 body :: rest)).state.story_id = some st.id
    ∧ (send_reply (start_story d cp sm nm ct (.response 200 body :: rest)).state
        text env2).requests
      = [⟨"POST", "https://api.aidungeon.io/sessions/" ++ toString st.id ++ "/inputs",
          .storyTextInput text⟩] := by
  have hstate : (start_story d cp sm nm ct (.response 200 body :: rest)).state
      = { d with story_id := some st.id } := by simp [start_story, hdec]
  refine ⟨by simp [start_story, hdec], by rw [hstate], ?_⟩
  rw [hstate, send_reply_requests _ st.id _ _ rfl, currentSessionUrl_eq]

/-- Witness for `start_story_then_send_reply_url` at concrete inputs. -/
theorem start_story_then_send_reply_url_witness :
    (start_story ⟨"tok", none⟩ (some "You wake up") "custom" none none
        [.response 200 (.story ⟨42, [⟨"output", "You wake up", none⟩]⟩)]).result
      = .ok [⟨"output", "You wake up", none⟩]
    ∧ (start_story ⟨"tok", none⟩ (some "You wake up") "custom" none none
        [.response 200 (.story ⟨42, [⟨"output", "You wake up", none⟩]⟩)]).state.story_id
      = some 42
    ∧ (send_reply (start_story ⟨"tok", none⟩ (some "You wake up") "custom" none none
        [.response 200 (.story ⟨42, [⟨"output", "You wake up", none⟩]⟩)]).state
        "open the door" []).requests
      = [⟨"POST", "https://api.aidungeon.io/sessions/" ++ toString 42 ++ "/inputs",
          .storyTextInput "open the door"⟩] :=
  start_story_then_send_reply_url ⟨"tok", none⟩ (some "You wake up") "custom" none none
    (.story ⟨42, [⟨"output", "You wake up", none⟩]⟩) ⟨42, [⟨"output", "You wake up", none⟩]⟩
    [] rfl "open the door" []

/-- C4: for each operation, a response status outside the statuses it
enumerates yields `UnexpectedError`, and the message carries the numeric
status code. -/
theorem unenumerated_status_unexpected (status : Nat) (body : ServerBody)
    (rest : List TransportOutcome) :
    (∀ email username password, status ≠ 200 → status ≠ 406 →
      isUnexpectedMentioning
        (register email username password (.response status body :: rest)).result status)
    ∧ (∀ email username password (u : User) body1, decodeUser body1 = .ok u →
      validHeaderValue u.accessToken = true → status ≠ 200 → status ≠ 400 →
      isUnexpectedMentioning
        (register email username password
          (.response 200 body1 :: .response status body :: rest)).result status)
    ∧ (∀ email password, status ≠ 200 →
      isUnexpectedMentioning
        (login email password (.response status body :: rest)).result status)
    ∧ (∀ d cp sm nm ct, status ≠ 200 →
      isUnexpectedMentioning
        (start_story d cp sm nm ct (.response status body :: rest)).result status)
    ∧ (∀ d (sid : Nat) text, d.story_id = some sid → status ≠ 200 →
      isUnexpectedMentioning
        (send_reply d text (.response status body :: rest)).result status)
    ∧ (∀ d, status ≠ 200 →
      isUnexpectedMentioning
        (get_recommended_story d (.response status body :: rest)).result status) := by
  refine ⟨?_, ?_, ?_, ?_, ?_, ?_⟩
  · intro email username password h200 h406
    exact ⟨"Bad request status code while checking whether user account exists: "
        ++ statusDisplay status,
      by simp [register, h200, h406], mentionsStatus_prefix _ status⟩
  · intro email username password u body1 hdec hval h200 h400
    exact ⟨"Bad request status code while trying to register user: " ++ statusDisplay status,
      by simp [register, hdec, hval, h200, h400], mentionsStatus_prefix _ status⟩
  · intro email password h200
    exact ⟨"Bad request status code while trying to log in: " ++ statusDisplay status,
      by simp [login, h200], mentionsStatus_prefix _ status⟩
  · intro d cp sm nm ct h200
    exact ⟨"Unexpected status code while sending reply: " ++ statusDisplay status,
      by simp [start_story, h200], mentionsStatus_prefix _ status⟩
  · intro d sid text h h200
    exact ⟨"Unexpected status code while sending reply: " ++ statusDisplay status,
      by simp [send_reply, h, h200], mentionsStatus_prefix _ status⟩
  · intro d h200
    exact ⟨"Unexpected status code while trying to fetch premade stories: "
        ++ statusDisplay status,
      by simp [get_recommended_story, h200], mentionsStatus_prefix _ status⟩

/-- Witness for `unenumerated_status_unexpected` at status 503. -/
theorem unenumerated_status_unexpected_witness :
    isUnexpectedMentioning
      (register "a" "u" "p" [.response 503 (.malformed "e")]).result 503
    ∧ isUnexpectedMentioning
      (register "a" "u" "p"
        [.response 200 (.user ⟨"tok"⟩), .response 503 (.malformed "e")]).result 503
    ∧ isUnexpectedMentioning
      (login "a" "p" [.response 503 (.malformed "e")]).result 503
    ∧ isUnexpectedMentioning
      (start_story ⟨"tok", none⟩ none "fantasy" (some "n") (some "w")
        [.response 503 (.malformed "e")]).result 503
    ∧ isUnexpectedMentioning
      (send_reply ⟨"tok", some 42⟩ "hi" [.response 503 (.malformed "e")]).result 503
    ∧ isUnexpectedMentioning
      (get_recommended_story ⟨"tok", none⟩ [.response 503 (.malformed "e")]).result 503 := by
  obtain ⟨h1, h2, h3, h4, h5, h6⟩ := unenumerated_status_unexpected 503 (.malformed "e") []
  exact ⟨h1 "a" "u" "p" (by decide) (by decide),
    h2 "a" "u" "p" ⟨"tok"⟩ (.user ⟨"tok"⟩) rfl (by decide) (by decide) (by decide),
    h3 "a" "p" (by decide),
    h4 ⟨"tok", none⟩ none "fantasy" (some "n") (some "w") (by decide),
    h5 ⟨"tok", some 42⟩ 42 "hi" rfl (by decide),
    h6 ⟨"tok", none⟩ (by decide)⟩

/-- Counterexample to C5 as stated: a `login` call that completes without any
early halt (it returns a handle) has issued exactly one HTTP request, not
two. -/
theorem login_two_requests_counterexample :
    (login "a@b.com" "secret" [.response 200 (.user ⟨"tok123"⟩)]).result
        = .ok ⟨"tok123", none⟩
    ∧ ¬ (login "a@b.com" "secret"
        [.response 200 (.user ⟨"tok123"⟩)]).requests.length = 2 :=
  ⟨rfl, by decide⟩

/-- C5 amended: `register` issues exactly two sequential HTTP requests
whenever its flow is not halted early (it returns a handle), while `login`
issues exactly one HTTP request on every call. -/
theorem auth_flow_request_counts (email username password : String)
    (env : List TransportOutcome) :
    (∀ d : AIDungeon, (register email username password env).result = .ok d →
      (register email username password env).requests.length = 2)
    ∧ (login email password env).requests.length = 1 := by
  constructor
  · intro d hd
    unfold register at hd ⊢
    repeat' split at hd <;> try simp_all
  · unfold login
    repeat' split <;> try simp_all

/-- Witness for `auth_flow_request_counts` at concrete inputs. -/
theorem auth_flow_request_counts_witness :
    (register "a@b.com" "user" "pw"
        [.response 200 (.user ⟨"tok"⟩), .response 200 (.malformed "e")]).requests.length = 2
    ∧ (login "a@b.com" "pw" []).requests.length = 1 :=
  ⟨(auth_flow_request_counts "a@b.com" "user" "pw"
      [.response 200 (.user ⟨"tok"⟩), .response 200 (.malformed "e")]).1 ⟨"tok", none⟩ rfl,
    (auth_flow_request_counts "a@b.com" "x" "pw" []).2⟩

/-- C6: a `start_story` call answered with a status other than 200 fails
with `UnexpectedError`, and every failure path of `start_story` (bad status,
decode failure, transport failure) leaves the handle exactly as it was. -/
theorem start_story_failure_preserves_handle
    (d : AIDungeon) (cp : Option String) (sm : String) (nm ct : Option String) :
    (∀ (status : Nat) body rest, status ≠ 200 →
      (∃ m, (start_story d cp sm nm ct (.response status body :: rest)).result
          = .error (.UnexpectedError m))
      ∧ (start_story d cp sm nm ct (.response status body :: rest)).state = d)
    ∧ (∀ env e, (start_story d cp sm nm ct env).result = .error e →
      (start_story d cp sm nm ct env).state = d) := by
  constructor
  · intro status body rest h200
    exact ⟨⟨"Unexpected status code while sending reply: " ++ statusDisplay status,
      by simp [start_story, h200]⟩, by simp [start_story, h200]⟩
  · intro env e he
    unfold start_story at he ⊢
    repeat' split at he <;> try simp_all

/-- Witness for `start_story_failure_preserves_handle` at concrete inputs. -/
theorem start_story_failure_preserves_handle_witness :
    ((∃ m, (start_story ⟨"tok", none⟩ none "fantasy" (some "n") (some "w")
        [.response 500 (.malformed "e")]).result = .error (.UnexpectedError m))
      ∧ (start_story ⟨"tok", none⟩ none "fantasy" (some "n") (some "w")
        [.response 500 (.malformed "e")]).state = ⟨"tok", none⟩)
    ∧ (start_story ⟨"tok", none⟩ none "fantasy" (some "n") (some "w")
        [.response 200 (.malformed "boom")]).state = ⟨"tok", none⟩ :=
  ⟨(start_story_failure_preserves_handle ⟨"tok", none⟩ none "fantasy" (some "n") (some "w")).1
      500 (.malformed "e") [] (by decide),
    (start_story_failure_preserves_handle ⟨"tok", none⟩ none "fantasy" (some "n") (some "w")).2
      [.response 200 (.malformed "boom")] (.InvalidResponseFromServer "boom") rfl⟩

/-- C7: once a handle holds a session identifier, no operation makes it
absent again: `start_story` at worst replaces it with another identifier, and
`send_reply` and `get_recommended_story` return the handle unchanged whatever
the outcome. -/
theorem session_id_never_cleared (d : AIDungeon) (sid : Nat)
    (h : d.story_id = some sid) :
    (∀ cp sm nm ct env, ∃ sid2 : Nat,
      (start_story d cp sm nm ct env).state.story_id = some sid2)
    ∧ (∀ text env, (send_reply d text env).state = d)
    ∧ (∀ env, (get_recommended_story d env).state = d) := by
  refine ⟨?_, ?_, ?_⟩
  · intro cp sm nm ct env
    unfold start_story
    repeat' split <;> try simp_all
  · intro text env
    unfold send_reply
    repeat' split <;> try simp_all
  · intro env
    unfold get_recommended_story
    repeat' split <;> try simp_all

/-- Witness for `session_id_never_cleared` at concrete inputs. -/
theorem session_id_never_cleared_witness :
    (∃ sid2 : Nat, (start_story ⟨"tok", some 7⟩ none "fantasy" (some "n") (some "w")
        [.response 200 (.story ⟨9, []⟩)]).state.story_id = some sid2)
    ∧ (send_reply ⟨"tok", some 7⟩ "hi" []).state = ⟨"tok", some 7⟩
    ∧ (get_recommended_story ⟨"tok", some 7⟩ []).state = ⟨"tok", some 7⟩ :=
  ⟨(session_id_never_cleared ⟨"tok", some 7⟩ 7 rfl).1 none "fantasy" (some "n") (some "w")
      [.response 200 (.story ⟨9, []⟩)],
    (session_id_never_cleared ⟨"tok", some 7⟩ 7 rfl).2.1 "hi" [],
    (session_id_never_cleared ⟨"tok", some 7⟩ 7 rfl).2.2 []⟩

/-- C8: no operation of the core ever returns the `InvalidPassword` error
kind, for any input and any transport outcome. -/
theorem invalid_password_never_returned
    (email username password text : String) (d : AIDungeon)
    (cp : Option String) (sm : String) (nm ct : Option String)
    (env : List TransportOutcome) :
    isInvalidPassword (register email username password env).result = false
    ∧ isInvalidPassword (login email password env).result = false
    ∧ isInvalidPassword (start_story d cp sm nm ct env).result = false
    ∧ isInvalidPassword (send_reply d text env).result = false
    ∧ isInvalidPassword (get_recommended_story d env).result = false := by
  refine ⟨?_, ?_, ?_, ?_, ?_⟩
  · rcases env with _ | ⟨o, env'⟩
    · simp [register, isInvalidPassword]
    · rcases o with e | ⟨status, body⟩
      · simp [register, isInvalidPassword]
      · by_cases h406 : status = 406
        · simp [register, isInvalidPassword, h406]
        · by_cases h200 : status = 200
          · rcases hdec : decodeUser body with e | u
            · simp [register, isInvalidPassword, h406, h200, hdec]
            · by_cases hval : validHeaderValue u.accessToken = true
              · rcases env' with _ | ⟨o2, env''⟩
                · simp [register, isInvalidPassword, h406, h200, hdec, hval]
                · rcases o2 with e2 | ⟨status2, body2⟩
                  · simp [register, isInvalidPassword, h406, h200, hdec, hval]
                  · by_cases hs2 : status2 = 200
                    · simp [register, isInvalidPassword, h406, h200, hdec, hval, hs2]
                    · by_cases hs4 : status2 = 400 <;>
                        simp [register, isInvalidPassword, h406, h200, hdec, hval, hs2, hs4]
              · simp [register, isInvalidPassword, h406, h200, hdec, hval]
          · simp [register, isInvalidPassword, h406, h200]
  · rcases env with _ | ⟨o, env'⟩
    · simp [login, isInvalidPassword]
    · rcases o with e | ⟨status, body⟩
      · simp [login, isInvalidPassword]
      · by_cases h200 : status = 200
        · rcases hdec : decodeUser body with e | u
          · simp [login, isInvalidPassword, h200, hdec]
          · by_cases hval : validHeaderValue u.accessToken = true <;>
              simp [login, isInvalidPassword, h200, hdec, hval]
        · simp [login, isInvalidPassword, h200]
  · rcases env with _ | ⟨o, env'⟩
    · simp [start_story, isInvalidPassword]
    · rcases o with e | ⟨status, body⟩
      · simp [start_story, isInvalidPassword]
      · by_cases h200 : status = 200
        · rcases hdec : decodeStory body with e | st <;>
            simp [start_story, isInvalidPassword, h200, hdec]
        · simp [start_story, isInvalidPassword, h200]
  · rcases hsid : d.story_id with _ | sid
    · simp [send_reply, isInvalidPassword, hsid]
    · rcases env with _ | ⟨o, env'⟩
      · simp [send_reply, isInvalidPassword, hsid]
      · rcases o with e | ⟨status, body⟩
        · simp [send_reply, isInvalidPassword, hsid]
        · by_cases h200 : status = 200
          · rcases hdec : decodeStoryTexts body with e | l <;>
              simp [send_reply, isInvalidPassword, hsid, h200, hdec]
          · simp [send_reply, isInvalidPassword, hsid, h200]
  · rcases env with _ | ⟨o, env'⟩
    · simp [get_recommended_story, isInvalidPassword]
    · rcases o with e | ⟨status, body⟩
      · simp [get_recommended_story, isInvalidPassword]
      · by_cases h200 : status = 200
        · rcases hdec : decodeStartModes body with e | c <;>
            simp [get_recommended_story, isInvalidPassword, h200, hdec]
        · simp [get_recommended_story, isInvalidPassword, h200]

/-- C9: under the §3 mutual-exclusion precondition, a custom-mode
`StartOptions` with a non-empty custom prompt encodes to a payload without
the `name` and `characterType` fields, and any other mode encodes to a
payload without `customPrompt` and with `name` and `characterType`. -/
theorem start_options_wire_fields (o : StartOptions)
    (h : wellFormedStartOptions o) :
    (o.storyMode = "custom" → ∀ p, o.customPrompt = some p → p ≠ "" →
      hasField (encodeStartOptions o) "name" = false
      ∧ hasField (encodeStartOptions o) "characterType" = false)
    ∧ (o.storyMode ≠ "custom" →
      hasField (encodeStartOptions o) "customPrompt" = false
      ∧ hasField (encodeStartOptions o) "name" = true
      ∧ hasField (encodeStartOptions o) "characterType" = true) := by
  unfold wellFormedStartOptions at h
  constructor
  · intro hm p hp hne
    rw [if_pos hm] at h
    obtain ⟨hn, hc⟩ := h
    constructor <;> simp [encodeStartOptions, hasField, hn, hc, hp]
  · intro hm
    rw [if_neg hm] at h
    obtain ⟨hcp, hn, hc⟩ := h
    rcases hn2 : o.name with _ | n
    · exact absurd hn2 hn
    rcases hc2 : o.characterType with _ | c
    · exact absurd hc2 hc
    refine ⟨?_, ?_, ?_⟩ <;> simp [encodeStartOptions, hasField, hcp, hn2, hc2]

/-- Witness for `start_options_wire_fields` at concrete inputs. -/
theorem start_options_wire_fields_witness :
    (hasField (encodeStartOptions ⟨none, some "You wake up", none, "custom"⟩) "name" = false
      ∧ hasField (encodeStartOptions ⟨none, some "You wake up", none, "custom"⟩)
          "characterType" = false)
    ∧ (hasField (encodeStartOptions ⟨some "warrior", none, some "Alice", "fantasy"⟩)
          "customPrompt" = false
      ∧ hasField (encodeStartOptions ⟨some "warrior", none, some "Alice", "fantasy"⟩)
          "name" = true
      ∧ hasField (encodeStartOptions ⟨some "warrior", none, some "Alice", "fantasy"⟩)
          "characterType" = true) :=
  ⟨(start_options_wire_fields ⟨none, some "You wake up", none, "custom"⟩
      (by simp [wellFormedStartOptions])).1 rfl "You wake up" rfl (by decide),
    (start_options_wire_fields ⟨some "warrior", none, some "Alice", "fantasy"⟩
      (by simp [wellFormedStartOptions])).2 (by simp)⟩

/-- C10: a successful `start_story` on a handle that already holds a session
identifier overwrites it with the newly decoded identifier, and subsequent
`send_reply` calls target the new session URL. -/
theorem start_story_overwrites_session
    (d : AIDungeon) (oldSid : Nat) (_h : d.story_id = some oldSid)
    (cp : Option String) (sm : String) (nm ct : Option String)
    (body : ServerBody) (st : Story) (rest : List TransportOutcome)
    (hdec : decodeStory body = .ok st) (text : String) (env2 : List TransportOutcome) :
    (start_story d cp sm nm ct (.response 200 body :: rest)).state.story_id = some st.id
    ∧ (send_reply (start_story d cp sm nm ct (.response 200 body :: rest)).state
        text env2).requests
      = [⟨"POST", "https://api.aidungeon.io/sessions/" ++ toString st.id ++ "/inputs",
          .storyTextInput text⟩] := by
  have hstate : (start_story d cp sm nm ct (.response 200 body :: rest)).state
      = { d with story_id := some st.id } := by simp [start_story, hdec]
  refine ⟨by rw [hstate], ?_⟩
  rw [hstate, send_reply_requests _ st.id _ _ rfl, currentSessionUrl_eq]

/-- Witness for `start_story_overwrites_session` at concrete inputs. -/
theorem start_story_overwrites_session_witness :
    (start_story ⟨"tok", some 7⟩ none "fantasy" (some "n") (some "w")
        [.response 200 (.story ⟨42, []⟩)]).state.story_id = some 42
    ∧ (send_reply (start_story ⟨"tok", some 7⟩ none "fantasy" (some "n") (some "w")
        [.response 200 (.story ⟨42, []⟩)]).state "hi" []).requests
      = [⟨"POST", "https://api.aidungeon.io/sessions/" ++ toString 42 ++ "/inputs",
          .storyTextInput "hi"⟩] :=
  start_story_overwrites_session ⟨"tok", some 7⟩ 7 rfl none "fantasy" (some "n") (some "w")
    (.story ⟨42, []⟩) ⟨42, []⟩ [] rfl "hi" []

end AIDungeonCli
